import Mathlib

/-!
Shallow embedding of the adaptive batch-processing engine
(`BatchTaskManager` in the repository's AI routes module).

The JS task record also carries `types`, `strategy` and `startTime`; none of
the verified claims mention them, so they are omitted.  Durations are
modelled in `ℚ` (all the JS arithmetic involved — products of integers
≤ 160000 and a single halving — is exact in IEEE doubles, so `ℚ` is
faithful).  The result of JS `parseInt` is modelled as `Option Int`
(`none` = `NaN`).
-/

set_option autoImplicit false

/-- Concurrency floor (`this.minConcurrency = 1`). -/
def minConcurrency : Nat := 1

/-- Concurrency ceiling (`this.maxConcurrency = 5`). -/
def maxConcurrency : Nat := 5

/-- Starting concurrency (`this.initialConcurrency = 3`). -/
def initialConcurrency : Nat := 3

/-- Retry budget in `processCardWithRetry` (`const maxRetries = 2`). -/
def maxRetries : Nat := 2

/-- An entry of the task's `errors` array.  Message text and timestamp play
no role in any claim, so only the identifying card id and the warning flag
are kept. -/
structure ErrEntry where
  cardId : Nat
  isWarning : Bool
deriving DecidableEq

/-- The mutable task record created by `start()`. -/
structure TaskRec where
  running : Bool
  current : Nat
  total : Nat
  successCount : Nat
  failCount : Nat
  currentCard : String
  errors : List ErrEntry
  concurrency : Nat
  isRateLimited : Bool
  consecutiveSuccesses : Nat
  rateLimitCount : Nat

/-- The task object built in `start()`. -/
def initTask (total : Nat) : TaskRec :=
  { running := true
    current := 0
    total := total
    successCount := 0
    failCount := 0
    currentCard := "准备启动..."
    errors := []
    concurrency := initialConcurrency
    isRateLimited := false
    consecutiveSuccesses := 0
    rateLimitCount := 0 }

/-- `BatchTaskManager.adjustConcurrency(successCount, failCount, hasRateLimit)`.
The JS code increments `consecutiveSuccesses` and then tests `>= 3`; here the
incremented value is tested directly, which is the same condition.  Note the
final branch (failures present but no rate limit) resets the streak only —
it does not touch `isRateLimited`. -/
def adjustConcurrency (t : TaskRec) (successCount failCount : Nat)
    (hasRateLimit : Bool) : TaskRec :=
  if hasRateLimit then
    { t with rateLimitCount := t.rateLimitCount + 1
             consecutiveSuccesses := 0
             isRateLimited := true
             concurrency := max minConcurrency (t.concurrency / 2) }
  else if 0 < successCount ∧ failCount = 0 then
    if 3 ≤ t.consecutiveSuccesses + 1 ∧ t.concurrency < maxConcurrency then
      { t with consecutiveSuccesses := 0
               isRateLimited := false
               concurrency := min maxConcurrency (t.concurrency + 1) }
    else
      { t with consecutiveSuccesses := t.consecutiveSuccesses + 1
               isRateLimited := false }
  else
    { t with consecutiveSuccesses := 0 }

/-- `BatchTaskManager.calculateDelay(baseDelay, hasRateLimit)` in ms. -/
def calculateDelay (t : TaskRec) (baseDelay : ℚ) (hasRateLimit : Bool) : ℚ :=
  if hasRateLimit then
    min (baseDelay * (2 : ℚ) ^ min t.rateLimitCount 4) 30000
  else if t.concurrency = 1 then
    baseDelay
  else
    max 200 (baseDelay / 2)

/-- Outcome of one attempt of the external item processor: success (with an
optional partial-failure annotation) or a thrown error, classified by
`isRateLimitError`. -/
inductive Attempt where
  | ok (partialError : Bool)
  | err (isRateLimit : Bool)

/-- The value resolved by `processCardWithRetry`. -/
structure ExecResult where
  success : Bool
  rateLimited : Bool
  partialError : Bool
deriving DecidableEq

/-- Body of `processCardWithRetry`: the item's behaviour is a function from
the retry count to the attempt outcome.  Returns the resolved result and the
list of backoff sleeps (ms) taken before each retry.  The JS function
recurses with `retryCount + 1` while `retryCount < maxRetries`; the extra
`fuel` argument (always `maxRetries + 1 - retryCount` at call sites, see
`processCardWithRetry`) makes that recursion structural; its zero case is
unreachable. -/
def processCardLoop (behavior : Nat → Attempt) (retryCount : Nat) :
    Nat → ExecResult × List Nat
  | 0 => (⟨false, false, false⟩, [])
  | fuel + 1 =>
    match behavior retryCount with
    | .ok p => (⟨true, false, p⟩, [])
    | .err isRL =>
      if isRL = true ∧ retryCount < maxRetries then
        ((processCardLoop behavior (retryCount + 1) fuel).1,
          2 ^ (retryCount + 1) * 1000 ::
            (processCardLoop behavior (retryCount + 1) fuel).2)
      else
        (⟨false, isRL, false⟩, [])

/-- `BatchTaskManager.processCardWithRetry(..., retryCount)`. -/
def processCardWithRetry (behavior : Nat → Attempt) (retryCount : Nat) :
    ExecResult × List Nat :=
  processCardLoop behavior retryCount (maxRetries + 1 - retryCount)

/-- An item of the batch: its id together with its per-attempt behaviour. -/
structure Item where
  id : Nat
  behavior : Nat → Attempt

/-- Result application for one settled window member, from the result loop of
`runTask`: `current` always advances; success bumps `successCount` and logs a
warning entry when `partialError` is set; any failure bumps `failCount` and
logs an error entry.  (`Promise.allSettled`'s rejected branch is dead code:
`processCardWithRetry` never throws.) -/
def applyResult (t : TaskRec) (cardId : Nat) (r : ExecResult) : TaskRec :=
  if r.success then
    if r.partialError then
      { t with current := t.current + 1
               successCount := t.successCount + 1
               errors := t.errors ++ [⟨cardId, true⟩] }
    else
      { t with current := t.current + 1
               successCount := t.successCount + 1 }
  else
    { t with current := t.current + 1
             failCount := t.failCount + 1
             errors := t.errors ++ [⟨cardId, false⟩] }

/-- The settled results of one window, in original order. -/
def windowResults (batch : List Item) : List ExecResult :=
  batch.map (fun it => (processCardWithRetry it.behavior 0).1)

/-- `hasRateLimit` of the result loop: some member failed with a classified
rate limit. -/
def windowHasRateLimit (rs : List ExecResult) : Bool :=
  rs.any (fun r => !r.success && r.rateLimited)

/-- `batchSuccess` accumulated by the result loop. -/
def batchSuccessCount (rs : List ExecResult) : Nat :=
  (rs.filter (fun r => r.success)).length

/-- `batchFail` accumulated by the result loop. -/
def batchFailCount (rs : List ExecResult) : Nat :=
  (rs.filter (fun r => !r.success)).length

/-- Fold the result loop's task mutations over a window. -/
def applyWindow (t : TaskRec) (batch : List Item) : TaskRec :=
  (batch.zip (windowResults batch)).foldl
    (fun acc p => applyResult acc p.1.id p.2) t

/-- One full iteration of the `runTask` loop after the window settles:
apply every result in order, then `adjustConcurrency`.  Returns the updated
task and the window's `hasRateLimit` flag. -/
def processWindow (t : TaskRec) (batch : List Item) : TaskRec × Bool :=
  (adjustConcurrency (applyWindow t batch)
      (batchSuccessCount (windowResults batch))
      (batchFailCount (windowResults batch))
      (windowHasRateLimit (windowResults batch)),
    windowHasRateLimit (windowResults batch))

/-- Trace entry for one executed window: its size, its rate-limit
classification, and the concurrency right after `adjustConcurrency`. -/
structure WindowLog where
  size : Nat
  hasRateLimit : Bool
  concurrencyAfter : Nat
deriving DecidableEq

/-- The `while (index < totalCards)` loop of `runTask`.  `stopDuring = some k`
models `stop()` being called while window `k` is in flight: the cancellation
flag flips after that window settles and its results are applied (applying
results and `adjustConcurrency` never read `running`, so this ordering is
observably the code's), and the loop-head check then breaks.  `fuel` makes
the loop structural; `remaining.length` windows always suffice because every
window consumes at least one item while `concurrency ≥ 1`. -/
def runBatchesAux (stopDuring : Option Nat) :
    Nat → Nat → TaskRec → List Item → TaskRec × List WindowLog
  | 0, _, t, _ => (t, [])
  | fuel + 1, wIdx, t, remaining =>
    if remaining.isEmpty ∨ t.running = false then
      (t, [])
    else
      ((runBatchesAux stopDuring fuel (wIdx + 1)
          (if stopDuring = some wIdx then
            { (processWindow t (remaining.take t.concurrency)).1 with
                running := false, currentCard := "已停止" }
          else
            (processWindow t (remaining.take t.concurrency)).1)
          (remaining.drop t.concurrency)).1,
        ⟨(remaining.take t.concurrency).length,
          (processWindow t (remaining.take t.concurrency)).2,
          (processWindow t (remaining.take t.concurrency)).1.concurrency⟩ ::
        (runBatchesAux stopDuring fuel (wIdx + 1)
          (if stopDuring = some wIdx then
            { (processWindow t (remaining.take t.concurrency)).1 with
                running := false, currentCard := "已停止" }
          else
            (processWindow t (remaining.take t.concurrency)).1)
          (remaining.drop t.concurrency)).2)

/-- The `finally` block of `runTask`: the task is flipped to not running,
the label cleared, and `current` is forced to `total` so the UI sees a final
100% snapshot — even when the loop exited early through cancellation. -/
def finalizeTask (t : TaskRec) : TaskRec :=
  { t with running := false, currentCard := "", current := t.total }

/-- Whole-task execution: run the scheduler loop from a fresh task over the
item list, then finalize.  Returns the final task and the window trace. -/
def runTask (items : List Item) (stopDuring : Option Nat) :
    TaskRec × List WindowLog :=
  ((finalizeTask (runBatchesAux stopDuring items.length 0
      (initTask items.length) items).1),
    (runBatchesAux stopDuring items.length 0 (initTask items.length) items).2)

/-- The snapshot returned by `getStatus()` when a task exists. -/
structure Snapshot where
  running : Bool
  current : Nat
  total : Nat
  successCount : Nat
  failCount : Nat
  currentCard : String
  concurrency : Nat
  isRateLimited : Bool
  errors : List ErrEntry

/-- `BatchTaskManager.getStatus()` on an existing task; `errors.slice(-100)`
keeps the last 100 entries, i.e. drops `length - 100` from the front. -/
def getStatus (t : TaskRec) : Snapshot :=
  { running := t.running
    current := t.current
    total := t.total
    successCount := t.successCount
    failCount := t.failCount
    currentCard := t.currentCard
    concurrency := t.concurrency
    isRateLimited := t.isRateLimited
    errors := t.errors.drop (t.errors.length - 100) }

/-- Whether the detached `runTask` invocation spawned by the last `start()`
has reached its `finally` block yet.  `midWindow` is the phase in which a
window is still in flight — the spec's Stopping phase lives here once
`stop()` has set the cancellation flag. -/
inductive SchedPhase where
  | idle
  | midWindow
  | finalized
deriving DecidableEq

/-- Controller state: the (at most one) task record plus the scheduler
phase. -/
structure Manager where
  task : Option TaskRec
  phase : SchedPhase

/-- `BatchTaskManager.isRunning()`. -/
def isRunning (m : Manager) : Bool :=
  match m.task with
  | some t => t.running
  | none => false

/-- `BatchTaskManager.start(...)`: throws `已有任务在运行中` (the
AlreadyRunningError) when `isRunning()`, before any mutation; otherwise
installs a fresh task, launches the scheduler, and returns the total. -/
def startTask (m : Manager) (total : Nat) : Manager × Except String Nat :=
  if isRunning m then
    (m, Except.error "已有任务在运行中")
  else
    ({ task := some (initTask total), phase := SchedPhase.midWindow },
      Except.ok total)

/-- `BatchTaskManager.stop()`: aborts, immediately clears `running` and sets
the stopped label, and returns `{stopped:true}`.  It does not wait for the
scheduler, so the phase is untouched. -/
def stopTask (m : Manager) : Manager × Bool :=
  (Manager.mk
    (m.task.map (fun t => { t with running := false, currentCard := "已停止" }))
    m.phase, true)

/-- The spec's Stopping state: a task exists, the cancellation flag is set
(`running = false`), and the scheduler has not yet finalized. -/
def isStopping (m : Manager) : Bool :=
  match m.task, m.phase with
  | some t, SchedPhase.midWindow => !t.running
  | _, _ => false

/-- `Math.max(500, Math.min(10000, v))` from the base-delay computation. -/
def clampBase (v : Int) : Int := max 500 (min 10000 v)

/-- The base delay computed in `runTask`:
`Math.max(500, Math.min(10000, parseInt(rawConfig.requestDelay) || 1500))`.
`p` is the `parseInt` result (`none` = `NaN`); `NaN` and `0` are falsy, so
`|| 1500` replaces both. -/
def baseDelayCode (p : Option Int) : Int :=
  clampBase (match p with
    | none => 1500
    | some v => if v = 0 then 1500 else v)

/-- Modelled from the spec's claim wording for C10 (for comparison with
`baseDelayCode`): `parseInt(requestDelay)` clamped into `[500, 10000]`, with
1500 used when the value is missing or unparsable. -/
def baseDelayClaim (p : Option Int) : Int :=
  match p with
  | none => 1500
  | some v => clampBase v

/-- Modelled from the spec's §4.4 wording for C5 (for comparison with
`calculateDelay`): rate limit → `min(base * 2^min(rateLimitEventCount,4),
30000)`; `concurrency == 1` → `base`; otherwise `max(200, base/2)`. -/
def delaySpecFormula (base : ℚ) (concurrency rlEvents : Nat)
    (hasRL : Bool) : ℚ :=
  if hasRL then
    min (base * (2 : ℚ) ^ min rlEvents 4) 30000
  else if concurrency = 1 then
    base
  else
    max 200 (base / 2)

/-- An item whose every attempt succeeds cleanly. -/
def cleanBehavior : Nat → Attempt := fun _ => Attempt.ok false

/-- Ten items that all succeed (spec §8 clean scenario). -/
def cleanItems10 : List Item :=
  (List.range 10).map (fun i => ⟨i + 1, cleanBehavior⟩)

/-- An item that fails with a 429-classified error on its first two attempts
and succeeds on the third. -/
def b429 : Nat → Attempt :=
  fun n => if n < 2 then Attempt.err true else Attempt.ok false

/-- Ten items where item 4 (index 3) is `b429` and the rest are clean
(spec §8 retry scenario). -/
def scenario429 : List Item :=
  (List.range 10).map (fun i => ⟨i + 1, if i = 3 then b429 else cleanBehavior⟩)

/-! ## Helper lemmas -/

lemma applyResult_concurrency (t : TaskRec) (i : Nat) (r : ExecResult) :
    (applyResult t i r).concurrency = t.concurrency := by
  unfold applyResult
  split_ifs <;> rfl

lemma applyWindow_concurrency (t : TaskRec) (batch : List Item) :
    (applyWindow t batch).concurrency = t.concurrency := by
  unfold applyWindow
  generalize batch.zip (windowResults batch) = l
  induction l generalizing t with
  | nil => rfl
  | cons a l ih => rw [List.foldl_cons, ih, applyResult_concurrency]

lemma adjustConcurrency_bounds (t : TaskRec) (s f : Nat) (rl : Bool)
    (h1 : minConcurrency ≤ t.concurrency)
    (h2 : t.concurrency ≤ maxConcurrency) :
    minConcurrency ≤ (adjustConcurrency t s f rl).concurrency ∧
      (adjustConcurrency t s f rl).concurrency ≤ maxConcurrency := by
  unfold adjustConcurrency minConcurrency maxConcurrency at *
  split_ifs <;> simp_all
  omega

lemma processWindow_concurrency_bounds (t : TaskRec) (batch : List Item)
    (h1 : minConcurrency ≤ t.concurrency)
    (h2 : t.concurrency ≤ maxConcurrency) :
    minConcurrency ≤ (processWindow t batch).1.concurrency ∧
      (processWindow t batch).1.concurrency ≤ maxConcurrency := by
  unfold processWindow
  exact adjustConcurrency_bounds _ _ _ _
    (by rw [applyWindow_concurrency]; exact h1)
    (by rw [applyWindow_concurrency]; exact h2)

lemma runBatchesAux_concurrency_bounds (sd : Option Nat) (fuel : Nat) :
    ∀ (wIdx : Nat) (t : TaskRec) (rem : List Item),
      minConcurrency ≤ t.concurrency → t.concurrency ≤ maxConcurrency →
      minConcurrency ≤ (runBatchesAux sd fuel wIdx t rem).1.concurrency ∧
        (runBatchesAux sd fuel wIdx t rem).1.concurrency ≤ maxConcurrency := by
  induction fuel with
  | zero => intro wIdx t rem h1 h2; exact ⟨h1, h2⟩
  | succ fuel ih =>
    intro wIdx t rem h1 h2
    rw [runBatchesAux]
    split
    · exact ⟨h1, h2⟩
    · have hb := processWindow_concurrency_bounds t (rem.take t.concurrency) h1 h2
      split
      · exact ih _ _ _ hb.1 hb.2
      · exact ih _ _ _ hb.1 hb.2

/-! ## Claims -/

/-- C1: for every reachable task state, the concurrency level lies between
`minConcurrency = 1` and `maxConcurrency = 5`; it starts at 3, every
`adjustConcurrency` step preserves the bounds, and so does a whole task
run. -/
theorem C1_concurrency_bounds :
    (∀ total, (initTask total).concurrency = 3) ∧
    (∀ (t : TaskRec) (s f : Nat) (rl : Bool),
      minConcurrency ≤ t.concurrency → t.concurrency ≤ maxConcurrency →
      minConcurrency ≤ (adjustConcurrency t s f rl).concurrency ∧
        (adjustConcurrency t s f rl).concurrency ≤ maxConcurrency) ∧
    (∀ (items : List Item) (sd : Option Nat),
      minConcurrency ≤ (runTask items sd).1.concurrency ∧
        (runTask items sd).1.concurrency ≤ maxConcurrency) := by
  refine ⟨fun _ => rfl, adjustConcurrency_bounds, fun items sd => ?_⟩
  exact runBatchesAux_concurrency_bounds sd items.length 0
    (initTask items.length) items
    (by exact (by decide : (1 : Nat) ≤ 3)) (by exact (by decide : (3 : Nat) ≤ 5))

/-- Closed witness for C1 at a concrete task. -/
theorem C1_concurrency_bounds_witness :
    minConcurrency ≤ (adjustConcurrency (initTask 4) 0 0 true).concurrency ∧
      (adjustConcurrency (initTask 4) 0 0 true).concurrency ≤ maxConcurrency :=
  C1_concurrency_bounds.2.1 (initTask 4) 0 0 true (by decide) (by decide)

/-- C2: a rate-limited window halves concurrency down to the floor
(`max(min, floor(c/2))`), resets the clean streak, increments the
rate-limit event counter and raises `isRateLimited`. -/
theorem C2_rate_limited_window (t : TaskRec) (s f : Nat) :
    (adjustConcurrency t s f true).concurrency
        = max minConcurrency (t.concurrency / 2) ∧
    (adjustConcurrency t s f true).consecutiveSuccesses = 0 ∧
    (adjustConcurrency t s f true).rateLimitCount = t.rateLimitCount + 1 ∧
    (adjustConcurrency t s f true).isRateLimited = true :=
  ⟨rfl, rfl, rfl, rfl⟩

/-- Task reached after one rate-limited window from a fresh task of 10
items: `isRateLimited` is set. -/
def afterRateLimited : TaskRec := adjustConcurrency (initTask 10) 1 2 true

/-- C3 counterexample: after a rate-limited window, a mixed window (one
failure, no rate limit) resets the streak and keeps concurrency, but does
NOT set `isRateLimited` to false — the final branch of `adjustConcurrency`
never touches that flag, so it stays true beyond the cycle immediately
following the throttle signal. -/
theorem C3_counterexample :
    afterRateLimited.isRateLimited = true ∧
    (adjustConcurrency afterRateLimited 1 1 false).consecutiveSuccesses = 0 ∧
    (adjustConcurrency afterRateLimited 1 1 false).concurrency
      = afterRateLimited.concurrency ∧
    ¬((adjustConcurrency afterRateLimited 1 1 false).isRateLimited = false) := by
  decide

/-- C3 amended: a mixed window resets the clean streak to 0 and leaves
concurrency, `isRateLimited` and the rate-limit event counter unchanged;
`isRateLimited` is cleared only by a fully clean window. -/
theorem C3_mixed_window (t : TaskRec) (s f : Nat) (hf : 0 < f) :
    (adjustConcurrency t s f false).consecutiveSuccesses = 0 ∧
    (adjustConcurrency t s f false).concurrency = t.concurrency ∧
    (adjustConcurrency t s f false).isRateLimited = t.isRateLimited ∧
    (adjustConcurrency t s f false).rateLimitCount = t.rateLimitCount := by
  unfold adjustConcurrency
  have h : ¬(0 < s ∧ f = 0) := by omega
  simp [h]

/-- Closed witness for C3's amended theorem. -/
theorem C3_mixed_window_witness :
    0 < 2 ∧
    ((adjustConcurrency (initTask 5) 1 2 false).consecutiveSuccesses = 0 ∧
      (adjustConcurrency (initTask 5) 1 2 false).concurrency
        = (initTask 5).concurrency ∧
      (adjustConcurrency (initTask 5) 1 2 false).isRateLimited
        = (initTask 5).isRateLimited ∧
      (adjustConcurrency (initTask 5) 1 2 false).rateLimitCount
        = (initTask 5).rateLimitCount) :=
  ⟨by decide, C3_mixed_window (initTask 5) 1 2 (by decide)⟩

/-- C4: a fully clean window clears `isRateLimited` and increments the
streak; once the streak reaches 3 with concurrency below the maximum,
concurrency grows by exactly 1 and the streak resets.  On 10 items that all
succeed from concurrency 3, the windows have sizes [3,3,3,1] and concurrency
becomes 4 exactly at the third window. -/
theorem C4_clean_window :
    (∀ (t : TaskRec) (s f : Nat), 0 < s → f = 0 →
      (adjustConcurrency t s f false).isRateLimited = false ∧
      (3 ≤ t.consecutiveSuccesses + 1 → t.concurrency < maxConcurrency →
        (adjustConcurrency t s f false).concurrency = t.concurrency + 1 ∧
        (adjustConcurrency t s f false).consecutiveSuccesses = 0) ∧
      (¬(3 ≤ t.consecutiveSuccesses + 1 ∧ t.concurrency < maxConcurrency) →
        (adjustConcurrency t s f false).concurrency = t.concurrency ∧
        (adjustConcurrency t s f false).consecutiveSuccesses
          = t.consecutiveSuccesses + 1)) ∧
    (runTask cleanItems10 none).2.map (fun w => (w.size, w.concurrencyAfter))
      = [(3, 3), (3, 3), (3, 4), (1, 4)] := by
  constructor
  · intro t s f hs hf
    subst hf
    have key : adjustConcurrency t s 0 false =
        if 3 ≤ t.consecutiveSuccesses + 1 ∧ t.concurrency < maxConcurrency then
          { t with consecutiveSuccesses := 0
                   isRateLimited := false
                   concurrency := min maxConcurrency (t.concurrency + 1) }
        else
          { t with consecutiveSuccesses := t.consecutiveSuccesses + 1
                   isRateLimited := false } := by
      unfold adjustConcurrency
      simp [hs]
    rw [key]
    refine ⟨?_, ?_, ?_⟩
    · split_ifs <;> rfl
    · intro h3 hc
      rw [if_pos ⟨h3, hc⟩]
      constructor
      · show min maxConcurrency (t.concurrency + 1) = t.concurrency + 1
        simp only [maxConcurrency] at hc ⊢
        omega
      · rfl
    · intro hn
      rw [if_neg hn]
      exact ⟨rfl, rfl⟩
  · decide

/-- Closed witness for C4 at a concrete clean window. -/
theorem C4_clean_window_witness :
    0 < 3 ∧ (adjustConcurrency (initTask 9) 3 0 false).isRateLimited = false :=
  ⟨by decide, (C4_clean_window.1 (initTask 9) 3 0 (by decide) rfl).1⟩

/-- C5: the inter-batch delay computed by `calculateDelay` matches the
spec's formula: rate-limited → `min(base * 2^min(rateLimitEventCount,4),
30000)`; serial (`concurrency = 1`) → `base`; otherwise
`max(200, base/2)`. -/
theorem C5_delay_formula (t : TaskRec) (base : ℚ) (hasRL : Bool) :
    calculateDelay t base hasRL
      = delaySpecFormula base t.concurrency t.rateLimitCount hasRL := rfl

/-- C6 counterexample: an item that fails twice with a 429-classified error
and then succeeds resolves as a plain success (`rateLimited = false`), so in
the 10-item scenario with such an item no window is marked rate-limited and
concurrency is never halved — it follows the all-clean trajectory
3,3,4,4 instead of dropping to 1. -/
theorem C6_counterexample :
    (processCardWithRetry b429 0).1 = ⟨true, false, false⟩ ∧
    (runTask scenario429 none).2.map WindowLog.hasRateLimit
      = [false, false, false, false] ∧
    (runTask scenario429 none).2.map WindowLog.concurrencyAfter
      = [3, 3, 4, 4] := by
  decide

/-- C6 amended: the executor retries the 429-failing item with backoff
sleeps of 2000 ms and 4000 ms and resolves it as a success; the item
contributes `successCount += 1` with no errors entry; but the containing
window is NOT marked rate-limited and concurrency is NOT halved — only a
rate-limit failure that exhausts its retries marks the window. -/
theorem C6_retry_then_success :
    (processCardWithRetry b429 0).2 = [2000, 4000] ∧
    (processCardWithRetry b429 0).1.success = true ∧
    (runTask scenario429 none).1.successCount = 10 ∧
    (runTask scenario429 none).1.failCount = 0 ∧
    (runTask scenario429 none).1.errors = [] ∧
    (runTask scenario429 none).2.map WindowLog.hasRateLimit
      = [false, false, false, false] ∧
    (runTask scenario429 none).2.map WindowLog.concurrencyAfter
      = [3, 3, 4, 4] ∧
    (processCardWithRetry (fun _ => Attempt.err true) 0).1
      = ⟨false, true, false⟩ := by
  decide

/-- Manager with no task at all. -/
def managerIdle : Manager := { task := none, phase := SchedPhase.idle }

/-- Manager right after a successful `start()` of a 10-item task: the task
is Running and the scheduler is mid-window. -/
def managerRun : Manager := (startTask managerIdle 10).1

/-- Manager after `stop()` is called while a window is in flight: the
cancellation flag is set but the scheduler has not finalized — the spec's
Stopping state. -/
def managerStopping : Manager := (stopTask managerRun).1

/-- C7 counterexample: `stop()` flips `running` to false immediately, so in
the Stopping state `isRunning()` is already false and a second `start()`
succeeds instead of failing with AlreadyRunningError. -/
theorem C7_counterexample :
    isStopping managerStopping = true ∧
    (startTask managerStopping 5).2 = Except.ok 5 :=
  ⟨rfl, rfl⟩

/-- C7 amended: `start()` fails synchronously with the AlreadyRunningError
(`已有任务在运行中`) exactly while the task is Running (`running = true`),
and then leaves the whole manager state — task record included — unchanged;
in the Stopping state (after `stop()`, scheduler not yet finalized) a new
`start()` succeeds. -/
theorem C7_start_semantics :
    (∀ (m : Manager) (total : Nat), isRunning m = true →
      startTask m total = (m, Except.error "已有任务在运行中")) ∧
    (∀ (m : Manager) (total : Nat), isStopping m = true →
      (startTask m total).2 = Except.ok total) := by
  constructor
  · intro m total h
    unfold startTask
    rw [if_pos h]
  · intro m total h
    have hr : isRunning m = false := by
      unfold isStopping at h
      unfold isRunning
      cases hm : m.task with
      | none => rfl
      | some t =>
        rw [hm] at h
        cases hp : m.phase <;> rw [hp] at h <;> simp_all
    unfold startTask
    rw [hr]
    simp

/-- Closed witness for C7's amended theorem. -/
theorem C7_start_semantics_witness :
    startTask managerRun 7 = (managerRun, Except.error "已有任务在运行中") ∧
    (startTask managerStopping 5).2 = Except.ok 5 :=
  ⟨C7_start_semantics.1 managerRun 7 (by decide),
    C7_start_semantics.2 managerStopping 5 (by decide)⟩

/-- C8: the error log exposed by `getStatus()` behaves as a capacity-100
FIFO ring buffer: it never exceeds 100 entries, it holds the
`min(recorded, 100)` most recent ones, and the internal list is exactly the
evicted oldest prefix followed by the exposed entries. -/
theorem C8_errors_capped (t : TaskRec) :
    (getStatus t).errors.length ≤ 100 ∧
    (getStatus t).errors.length = min t.errors.length 100 ∧
    t.errors = t.errors.take (t.errors.length - 100) ++ (getStatus t).errors := by
  refine ⟨?_, ?_, ?_⟩
  · simp only [getStatus, List.length_drop]
    omega
  · simp only [getStatus, List.length_drop]
    omega
  · simp only [getStatus]
    exact (List.take_append_drop _ _).symm

/-- C9 counterexample: `stop()` during the first window of the 10-item
clean run lets that window finish and blocks further windows, but the
`finally` block of `runTask` then forces `current` to `total`, so the final
snapshot shows `current = 10 = total`, not `current < total` as the claim
states. -/
theorem C9_counterexample :
    (runTask cleanItems10 (some 0)).2.map WindowLog.size = [3] ∧
    (getStatus (runTask cleanItems10 (some 0)).1).running = false ∧
    (getStatus (runTask cleanItems10 (some 0)).1).current = 10 ∧
    ¬((getStatus (runTask cleanItems10 (some 0)).1).current
        < (getStatus (runTask cleanItems10 (some 0)).1).total) := by
  decide

/-- After `stop()` the loop launches nothing further: once a task is not
running, the scheduler loop exits immediately. -/
lemma runBatchesAux_not_running (sd : Option Nat) (fuel wIdx : Nat)
    (t : TaskRec) (rem : List Item) (h : t.running = false) :
    runBatchesAux sd fuel wIdx t rem = (t, []) := by
  cases fuel with
  | zero => rfl
  | succ fuel =>
    rw [runBatchesAux]
    rw [if_pos (Or.inr h)]

/-- With a stop signalled during window `k`, at most `k + 1 - wIdx` further
windows run (counting from window index `wIdx`). -/
lemma runBatchesAux_stop_length (k : Nat) (fuel : Nat) :
    ∀ (wIdx : Nat) (t : TaskRec) (rem : List Item), wIdx ≤ k →
      (runBatchesAux (some k) fuel wIdx t rem).2.length ≤ k + 1 - wIdx := by
  induction fuel with
  | zero =>
    intro wIdx t rem h
    simp [runBatchesAux]
  | succ fuel ih =>
    intro wIdx t rem h
    rw [runBatchesAux]
    split
    · simp
    · by_cases hk : wIdx = k
      · subst hk
        rw [if_pos rfl]
        rw [runBatchesAux_not_running _ _ _ _ _ (by rfl)]
        simp only [List.length_cons, List.length_nil]
        omega
      · rw [if_neg (fun hc => hk (Option.some.inj hc).symm)]
        have hrec := ih (wIdx + 1)
          ((processWindow t (rem.take t.concurrency)).1)
          (rem.drop t.concurrency) (by omega)
        simp only [List.length_cons]
        omega

/-- C9 amended: when `stop()` arrives while a window is in flight, that
window completes and its results are applied (here: 3 successes), no
further window launches (in general at most `k + 1` windows run when the
stop arrives during window `k`), and the final task has `running = false`;
but finalization forces `current` to `total`, so the snapshot shows
`current = total` while the number of actually settled items
(`successCount + failCount`) stays strictly below `total`. -/
theorem C9_stop_mid_window :
    (runTask cleanItems10 (some 0)).2.map WindowLog.size = [3] ∧
    (runTask cleanItems10 (some 0)).1.successCount = 3 ∧
    (runTask cleanItems10 (some 0)).1.running = false ∧
    (runTask cleanItems10 (some 0)).1.current
      = (runTask cleanItems10 (some 0)).1.total ∧
    (runTask cleanItems10 (some 0)).1.successCount
        + (runTask cleanItems10 (some 0)).1.failCount
      < (runTask cleanItems10 (some 0)).1.total ∧
    (∀ (items : List Item) (k : Nat),
      (runTask items (some k)).2.length ≤ k + 1) := by
  refine ⟨by decide, by decide, by decide, by decide, by decide, ?_⟩
  intro items k
  have := runBatchesAux_stop_length k items.length 0
    (initTask items.length) items (Nat.zero_le k)
  simpa [runTask] using this

/-- C10 counterexample: a `requestDelay` that parses to `0` is falsy in JS,
so `parseInt(requestDelay) || 1500` yields 1500, while the claim's
"parseInt clamped into [500, 10000]" would yield 500. -/
theorem C10_counterexample :
    baseDelayCode (some 0) = 1500 ∧
    baseDelayClaim (some 0) = 500 ∧
    baseDelayCode (some 0) ≠ baseDelayClaim (some 0) := by
  decide

/-- C10 amended: the base delay is `parseInt(requestDelay)` clamped into
`[500, 10000]`, except that a missing, unparsable, or zero (falsy) value is
replaced by 1500 before clamping; the result always lies in
`[500, 10000]`. -/
theorem C10_base_delay (p : Option Int) :
    500 ≤ baseDelayCode p ∧ baseDelayCode p ≤ 10000 ∧
    baseDelayCode p = (match p with
      | none => 1500
      | some v => if v = 0 then 1500 else clampBase v) := by
  have hb : ∀ w : Int, 500 ≤ clampBase w ∧ clampBase w ≤ 10000 := by
    intro w
    unfold clampBase
    exact ⟨le_max_left _ _, max_le (by norm_num) (min_le_left _ _)⟩
  refine ⟨(hb _).1, (hb _).2, ?_⟩
  cases p with
  | none => rfl
  | some v =>
    by_cases h : v = 0
    · subst h
      decide
    · show clampBase (if v = 0 then 1500 else v)
        = if v = 0 then 1500 else clampBase v
      rw [if_neg h, if_neg h]
